import Mathlib

/-!
Verification of the resilient LLM-call orchestrator of the debate-simulator
repository (the `callGroq` function and the model-registry tables of the
Groq server variant), via a shallow embedding.

The remote endpoint is modelled by an *oracle*: a list of fetch outcomes,
consumed one element per outbound request.  The JavaScript function is a
`while` retry loop whose body contains a `try`/`catch`; on fallback-eligible
server rejections it makes a recursive call *inside* the `try` block, so an
exception escaping the recursive call is handled by the caller's `catch`.
We model this with an explicit stack of suspended frames: `runCall` consumes
the oracle, and `unwind` plays the chain of `catch` blocks.
-/

namespace DebateSim

/-! ## Registry and configuration tables (from the source) -/

def FETCH_TIMEOUT_MS : Nat := 60000

def MAX_RETRIES : Nat := 3

def INITIAL_RETRY_DELAY_MS : Nat := 1000

/-- `FREE_MODELS`: modelAlias → provider model identifier. -/
def FREE_MODELS : List (String × String) :=
  [("llama33", "llama-3.3-70b-versatile"),
   ("llama31", "llama-3.1-8b-instant"),
   ("llama3", "llama3-70b-8192"),
   ("mixtral", "mixtral-8x7b-32768"),
   ("gemma2", "gemma2-9b-it"),
   ("llama32", "llama-3.2-90b-text-preview")]

/-- Lookup `FREE_MODELS[modelAlias]`. -/
def freeModelsLookup (modelAlias : String) : Option String :=
  (FREE_MODELS.find? (fun p => p.1 == modelAlias)).map Prod.snd

/-- The JS test `modelAlias in FREE_MODELS`. -/
def isFreeModel (modelAlias : String) : Bool :=
  (freeModelsLookup modelAlias).isSome

/-- `MODEL_FALLBACK_ORDER`. -/
def MODEL_FALLBACK_ORDER : List String :=
  ["llama33", "llama32", "llama3", "mixtral", "llama31", "gemma2"]

/-- A persona descriptor (`AGENT_PERSONALITIES` entries). -/
structure Personality where
  name : String
  role : String
  style : String
deriving Repr, DecidableEq

/-- `RESPONSE_LENGTHS`: tier → token budget. -/
def RESPONSE_LENGTHS : List (String × Nat) :=
  [("short", 150), ("medium", 300), ("long", 500)]

/-- Lookup `RESPONSE_LENGTHS[tier]?.tokens`. -/
def responseLengthTokens (tier : String) : Option Nat :=
  (RESPONSE_LENGTHS.find? (fun p => p.1 == tier)).map Prod.snd

/-- `FREE_MODELS[model] || FREE_MODELS.llama33` (line 94 of the server). -/
def resolveModelId (modelAlias : String) : String :=
  match freeModelsLookup modelAlias with
  | some id => id
  | none => "llama-3.3-70b-versatile"

/-- `RESPONSE_LENGTHS[length]?.tokens || 300` (line 95 of the server). -/
def resolveMaxTokens (tier : String) : Nat :=
  match responseLengthTokens tier with
  | some t => t
  | none => 300

/-- `MODEL_FALLBACK_ORDER.find(m => !triedModelsSet.has(m))` (line 146). -/
def fallbackCandidate (tried : List String) : Option String :=
  MODEL_FALLBACK_ORDER.find? (fun m => !tried.contains m)

/-! ## The endpoint interface -/

/-- A JavaScript exception as far as `callGroq` inspects it: its `name`
and its `code` (empty string when the property is absent). -/
structure JsError where
  name : String
  code : String
deriving Repr, DecidableEq

/-- The `isNetworkError` classification in the catch block (lines 172-176). -/
def isNetworkError (e : JsError) : Bool :=
  e.name == "AbortError" || e.name == "TypeError" ||
  e.code == "UND_ERR_CONNECT_TIMEOUT" || e.code == "ECONNREFUSED" ||
  e.code == "ETIMEDOUT"

/-- One outcome of an outbound fetch, supplied by the environment:
either an HTTP response (status, body text for the error path, and the
extracted `choices[0].message.content` field for the success path, `none`
when the field is absent), or a transport-level exception. -/
inductive FetchResult where
  | resp (status : Nat) (errorData : String) (content : Option String)
  | netErr (e : JsError)
deriving Repr, DecidableEq

/-- `response.ok`: status in the 200-299 range. -/
def respOk (status : Nat) : Bool :=
  200 ≤ status && status ≤ 299

/-- The exceptions `callGroq` can propagate.  `apiError` is
`new Error('Groq API error: status - errorData')` (line 155);
`invalidResponse` is `new Error('Invalid response from Groq API: missing
content')` (line 162); `net` is a transport exception passed through;
`noResponse` is an artifact of the embedding for an exhausted oracle
(never produced when the oracle covers all issued requests). -/
inductive GroqError where
  | apiError (status : Nat) (errorData : String)
  | invalidResponse
  | net (e : JsError)
  | noResponse
deriving Repr, DecidableEq

/-- Whether the catch block classifies a propagated value as a network
error: the `Error` objects built at lines 155 and 162 have `name = "Error"`
and no `code`, so only transport exceptions qualify. -/
def errIsNetwork : GroqError → Bool
  | .net e => isNetworkError e
  | _ => false

/-! ## Observable requests and events -/

/-- One entry of the `messages` array of the request body. -/
structure Message where
  role : String
  content : String
deriving Repr, DecidableEq

/-- The request body built at lines 114-128. -/
structure Request where
  model : String
  messages : List Message
  max_tokens : Nat
  temperature : ℚ
deriving Repr, DecidableEq

/-- The request body one iteration sends, for frame modelAlias `modelAlias`. -/
def mkRequest (prompt style tier modelAlias : String) : Request :=
  { model := resolveModelId modelAlias
    messages := [⟨"system", style⟩, ⟨"user", prompt⟩]
    max_tokens := resolveMaxTokens tier
    temperature := 7/10 }

/-- Observable side effects of a call: outbound requests and backoff waits. -/
inductive Event where
  | request (r : Request)
  | wait (ms : Nat)
deriving Repr, DecidableEq

def requestsOf (evs : List Event) : List Request :=
  evs.filterMap fun e =>
    match e with
    | .request r => some r
    | .wait _ => none

def waitsOf (evs : List Event) : List Nat :=
  evs.filterMap fun e =>
    match e with
    | .wait d => some d
    | .request _ => none

/-! ## The orchestrator -/

/-- One activation of `callGroq`: its `model` argument, its local
`triedModelsSet` (as a list with set semantics), and its `attempt` counter. -/
structure Frame where
  model : String
  tried : List String
  attempt : Nat
deriving Repr, DecidableEq

/-- `triedModelsSet.add(model)`. -/
def addTried (tried : List String) (m : String) : List String :=
  if tried.contains m then tried else tried ++ [m]

/-- `is404 || is429 || is503` (lines 136-138). -/
def fallbackEligible (status : Nat) : Bool :=
  status == 404 || status == 429 || status == 503

/-- What the `try` block does with one fetch outcome. -/
inductive TryOut where
  | success (text : String)
  | fallback (fm : String) (tried' : List String)
  | thrown (e : GroqError)
deriving Repr, DecidableEq

/-- The body of the `try` block (lines 108-165) applied to one fetch
outcome, for the current frame.  JS string truthiness: an empty `content`
string is falsy, hence also a malformed response. -/
def classify (f : Frame) : FetchResult → TryOut
  | .netErr e => .thrown (.net e)
  | .resp status errorData content =>
    if respOk status then
      match content with
      | some c => if c.isEmpty then .thrown .invalidResponse else .success c
      | none => .thrown .invalidResponse
    else
      if fallbackEligible status && isFreeModel f.model
          && !(f.tried.contains f.model) then
        match fallbackCandidate (addTried f.tried f.model) with
        | some fm => .fallback fm (addTried f.tried f.model)
        | none => .thrown (.apiError status errorData)
      else .thrown (.apiError status errorData)

/-- The chain of `catch` blocks (lines 166-189) for a propagating
exception: the first frame for which the error is a network error and
`attempt !== MAX_RETRIES` retries after an exponential-backoff wait;
frames that cannot retry rethrow to their caller. -/
def unwind (e : GroqError) : List Frame → Option (Nat × Frame × List Frame)
  | [] => none
  | f :: stack =>
    if errIsNetwork e && !(f.attempt == MAX_RETRIES) then
      some (INITIAL_RETRY_DELAY_MS * 2 ^ f.attempt,
            { f with attempt := f.attempt + 1 }, stack)
    else unwind e stack

/-- Execution of `callGroq` against an oracle, from a current frame and the
stack of suspended callers.  Each list element of the oracle answers exactly
one outbound request.  Returns the emitted events and the overall result. -/
def runCall (prompt style tier : String) :
    List FetchResult → Frame → List Frame → List Event × Except GroqError String
  | [], _, _ => ([], .error .noResponse)
  | o :: rest, f, stack =>
    let req := Event.request (mkRequest prompt style tier f.model)
    match classify f o with
    | .success c => ([req], .ok c)
    | .fallback fm tried' =>
      let out := runCall prompt style tier rest ⟨fm, tried', 0⟩
        ({ f with tried := tried' } :: stack)
      (req :: out.1, out.2)
    | .thrown e =>
      match unwind e (f :: stack) with
      | some (d, f', stack') =>
        let out := runCall prompt style tier rest f' stack'
        (req :: Event.wait d :: out.1, out.2)
      | none => ([req], .error e)

/-- `callGroq(prompt, personality, length, model, triedModels)` run against
an oracle of fetch outcomes. -/
def callGroq (oracle : List FetchResult) (prompt : String) (pers : Personality)
    (tier : String) (model : String) (triedModels : List String) :
    List Event × Except GroqError String :=
  runCall prompt pers.style tier oracle ⟨model, triedModels, 0⟩ []

/-! ## Claim theorems -/

/-- C2: starting from `llama33`, a 503 rejection on `llama33`, a 503
rejection on `llama32`, and a 200 success with generated text on `llama3`
make `callGroq` return `llama3`'s generated text after exactly 3 remote
calls, which follow the fallback order. -/
theorem fallback_503_503_success_returns_third_model_text :
    (requestsOf (callGroq
        [.resp 503 "busy1" none, .resp 503 "busy2" none, .resp 200 "" (some "T3")]
        "P" ⟨"Pro Agent", "advocate", "S"⟩ "medium" "llama33" []).1).map Request.model =
      ["llama-3.3-70b-versatile", "llama-3.2-90b-text-preview", "llama3-70b-8192"] ∧
    (callGroq
        [.resp 503 "busy1" none, .resp 503 "busy2" none, .resp 200 "" (some "T3")]
        "P" ⟨"Pro Agent", "advocate", "S"⟩ "medium" "llama33" []).2 = .ok "T3" :=
  ⟨rfl, rfl⟩

/-- C6: fallback-eligible rejections on all 6 models of the fallback order
yield a terminal server-rejection failure carrying the status and body the
endpoint returned for the last model attempted (`gemma2`), after exactly
the 6 requests of the fallback order. -/
theorem all_models_rejected_terminal_references_last :
    (callGroq
        [.resp 404 "e1" none, .resp 429 "e2" none, .resp 503 "e3" none,
         .resp 404 "e4" none, .resp 429 "e5" none, .resp 503 "e6" none]
        "P" ⟨"Pro Agent", "advocate", "S"⟩ "short" "llama33" []).2 =
      .error (.apiError 503 "e6") ∧
    (requestsOf (callGroq
        [.resp 404 "e1" none, .resp 429 "e2" none, .resp 503 "e3" none,
         .resp 404 "e4" none, .resp 429 "e5" none, .resp 503 "e6" none]
        "P" ⟨"Pro Agent", "advocate", "S"⟩ "short" "llama33" []).1).map Request.model =
      ["llama-3.3-70b-versatile", "llama-3.2-90b-text-preview", "llama3-70b-8192",
       "mixtral-8x7b-32768", "llama-3.1-8b-instant", "gemma2-9b-it"] :=
  ⟨rfl, rfl⟩

/-- C1 (violation witness): after a 429 on `llama33` adds it to the tried
set and switches to `llama32`, four transport failures on `llama32`
propagate to the suspended `llama33` activation, whose catch block retries
and re-issues a request for `llama-3.3-70b-versatile` — an alias already in
the tried set is attempted a second time. -/
theorem tried_model_reissued_after_fallback_transport_failure :
    (requestsOf (callGroq
        [.resp 429 "over" none, .netErr ⟨"AbortError", ""⟩, .netErr ⟨"AbortError", ""⟩,
         .netErr ⟨"AbortError", ""⟩, .netErr ⟨"AbortError", ""⟩, .resp 429 "again" none]
        "P" ⟨"Pro Agent", "advocate", "S"⟩ "medium" "llama33" []).1).map Request.model =
      ["llama-3.3-70b-versatile", "llama-3.2-90b-text-preview", "llama-3.2-90b-text-preview",
       "llama-3.2-90b-text-preview", "llama-3.2-90b-text-preview", "llama-3.3-70b-versatile"] ∧
    (callGroq
        [.resp 429 "over" none, .netErr ⟨"AbortError", ""⟩, .netErr ⟨"AbortError", ""⟩,
         .netErr ⟨"AbortError", ""⟩, .netErr ⟨"AbortError", ""⟩, .resp 429 "again" none]
        "P" ⟨"Pro Agent", "advocate", "S"⟩ "medium" "llama33" []).2 =
      .error (.apiError 429 "again") :=
  ⟨rfl, rfl⟩

/-- C5: a success-status response whose body lacks the generated-text field
terminates the call at once with the invalid-response failure: one single
request, no wait, no fallback, and the rest of the oracle untouched. -/
theorem malformed_success_immediately_terminal (status : Nat)
    (h : respOk status = true) (errorData : String) (rest : List FetchResult)
    (prompt tier model : String) (pers : Personality) (tried : List String) :
    callGroq (.resp status errorData none :: rest) prompt pers tier model tried =
      ([.request (mkRequest prompt pers.style tier model)], .error .invalidResponse) := by
  simp [callGroq, runCall, classify, h, unwind, errIsNetwork]

theorem malformed_success_immediately_terminal_witness :
    callGroq [.resp 200 "body" none] "P" ⟨"Pro Agent", "advocate", "S"⟩ "short" "llama33" [] =
      ([.request (mkRequest "P" "S" "short" "llama33")], .error .invalidResponse) :=
  malformed_success_immediately_terminal 200 (by decide) "body" [] "P" "short" "llama33"
    ⟨"Pro Agent", "advocate", "S"⟩ []

theorem requestsOf_nil : requestsOf [] = [] := rfl

theorem requestsOf_request_cons (r : Request) (evs : List Event) :
    requestsOf (Event.request r :: evs) = r :: requestsOf evs := rfl

theorem requestsOf_wait_cons (d : Nat) (evs : List Event) :
    requestsOf (Event.wait d :: evs) = requestsOf evs := rfl

theorem waitsOf_request_cons (r : Request) (evs : List Event) :
    waitsOf (Event.request r :: evs) = waitsOf evs := rfl

theorem waitsOf_wait_cons (d : Nat) (evs : List Event) :
    waitsOf (Event.wait d :: evs) = d :: waitsOf evs := rfl

/-- Every request a run ever issues is `mkRequest` of the run's prompt,
style and tier, at some alias. -/
theorem runCall_requests_shape (prompt style tier : String) :
    ∀ (oracle : List FetchResult) (f : Frame) (stack : List Frame),
      ∀ r ∈ requestsOf (runCall prompt style tier oracle f stack).1,
        ∃ m, r = mkRequest prompt style tier m := by
  intro oracle
  induction oracle with
  | nil => intro f stack r hr; simp [runCall, requestsOf] at hr
  | cons o rest ih =>
    intro f stack r hr
    rcases hc : classify f o with c | ⟨fm, tr⟩ | e
    · simp only [runCall, hc, requestsOf_request_cons] at hr
      rcases List.mem_cons.mp hr with hr | hr
      · exact ⟨f.model, hr⟩
      · simp [requestsOf] at hr
    · simp only [runCall, hc, requestsOf_request_cons] at hr
      rcases List.mem_cons.mp hr with hr | hr
      · exact ⟨f.model, hr⟩
      · exact ih _ _ r hr
    · rcases hu : unwind e (f :: stack) with _ | ⟨d, f', stack'⟩
      · simp only [runCall, hc, hu, requestsOf_request_cons] at hr
        rcases List.mem_cons.mp hr with hr | hr
        · exact ⟨f.model, hr⟩
        · simp [requestsOf] at hr
      · simp only [runCall, hc, hu, requestsOf_request_cons, requestsOf_wait_cons] at hr
        rcases List.mem_cons.mp hr with hr | hr
        · exact ⟨f.model, hr⟩
        · exact ih _ _ r hr

/-- C9: every remote request carries exactly one system message with the
persona's style instruction and one user message with the prompt, a fixed
temperature of 0.7, and a token bound equal to the tier's configured budget
(or 300 for an unknown tier). -/
theorem request_shape_and_token_budget (oracle : List FetchResult)
    (prompt tier model : String) (pers : Personality) (r : Request)
    (hr : r ∈ requestsOf (callGroq oracle prompt pers tier model []).1) :
    r.messages = [⟨"system", pers.style⟩, ⟨"user", prompt⟩] ∧
    r.temperature = 7/10 ∧
    r.max_tokens = (match responseLengthTokens tier with | some t => t | none => 300) := by
  obtain ⟨m, rfl⟩ := runCall_requests_shape prompt pers.style tier oracle ⟨model, [], 0⟩ [] r hr
  exact ⟨rfl, rfl, rfl⟩

theorem request_shape_and_token_budget_witness :
    (mkRequest "P" "S" "short" "llama33").messages = [⟨"system", "S"⟩, ⟨"user", "P"⟩] ∧
    (mkRequest "P" "S" "short" "llama33").temperature = 7/10 ∧
    (mkRequest "P" "S" "short" "llama33").max_tokens =
      (match responseLengthTokens "short" with | some t => t | none => 300) :=
  request_shape_and_token_budget [.resp 200 "" (some "x")] "P" "short" "llama33"
    ⟨"Pro Agent", "advocate", "S"⟩ (mkRequest "P" "S" "short" "llama33")
    (by
      rw [show requestsOf (callGroq [.resp 200 "" (some "x")] "P"
          ⟨"Pro Agent", "advocate", "S"⟩ "short" "llama33" []).1 =
          [mkRequest "P" "S" "short" "llama33"] from rfl]
      exact List.mem_singleton.mpr rfl)

/-- `List.find?` returns the first element satisfying the predicate:
everything to its left fails the predicate. -/
theorem find?_first_split {α : Type _} (p : α → Bool) :
    ∀ (l : List α) (a : α), l.find? p = some a →
      p a = true ∧ ∃ l1 l2, l = l1 ++ a :: l2 ∧ ∀ x ∈ l1, p x = false := by
  intro l
  induction l with
  | nil => intro a h; simp [List.find?] at h
  | cons b bs ih =>
    intro a h
    rcases hb : p b with _ | _
    · rw [List.find?_cons_of_neg _ (by simp [hb])] at h
      obtain ⟨hpa, l1, l2, hsplit, hall⟩ := ih a h
      exact ⟨hpa, b :: l1, l2, by simp [hsplit], by
        intro x hx
        rcases List.mem_cons.mp hx with rfl | hx2
        · exact hb
        · exact hall x hx2⟩
    · rw [List.find?_cons_of_pos _ hb] at h
      cases h
      exact ⟨hb, [], bs, rfl, by simp⟩

/-- C8: the fallback-candidate scan of line 146 returns the first alias of
`MODEL_FALLBACK_ORDER` not in the tried set — every alias placed before it
in the order is tried — and returns `none` exactly when every alias of the
order is in the tried set. -/
theorem fallback_candidate_first_untried (tried : List String) :
    (fallbackCandidate tried = none ↔ ∀ m ∈ MODEL_FALLBACK_ORDER, m ∈ tried) ∧
    (∀ fm, fallbackCandidate tried = some fm →
      fm ∈ MODEL_FALLBACK_ORDER ∧ fm ∉ tried ∧
      ∃ l1 l2, MODEL_FALLBACK_ORDER = l1 ++ fm :: l2 ∧ ∀ x ∈ l1, x ∈ tried) := by
  constructor
  · rw [fallbackCandidate, List.find?_eq_none]
    constructor
    · intro h m hm
      have := h m hm
      simp at this
      exact this
    · intro h m hm
      simp [h m hm]
  · intro fm hfm
    obtain ⟨hp, l1, l2, hsplit, hall⟩ := find?_first_split _ _ _ hfm
    refine ⟨List.mem_of_find?_eq_some hfm, by simp at hp; exact hp, l1, l2, hsplit, ?_⟩
    intro x hx
    have := hall x hx
    simp at this
    exact this

theorem fallback_candidate_first_untried_witness :
    fallbackCandidate ["llama33", "llama32"] = some "llama3" ∧
    ("llama3" ∈ MODEL_FALLBACK_ORDER ∧ "llama3" ∉ (["llama33", "llama32"] : List String) ∧
      ∃ l1 l2, MODEL_FALLBACK_ORDER = l1 ++ "llama3" :: l2 ∧
        ∀ x ∈ l1, x ∈ (["llama33", "llama32"] : List String)) :=
  ⟨rfl, (fallback_candidate_first_untried ["llama33", "llama32"]).2 "llama3" rfl⟩

/-! ### A potential function bounding the number of outbound requests -/

/-- The set of registry aliases. -/
def FREE_MODEL_KEYS : Finset String := (FREE_MODELS.map Prod.fst).toFinset

theorem isFreeModel_iff_mem_keys (m : String) :
    isFreeModel m = true ↔ m ∈ FREE_MODEL_KEYS := by
  simp [isFreeModel, FREE_MODEL_KEYS, freeModelsLookup, List.find?_isSome, List.mem_map]

theorem keys_card : FREE_MODEL_KEYS.card = 6 := by decide

theorem order_all_free : ∀ m ∈ MODEL_FALLBACK_ORDER, isFreeModel m = true := by decide

/-- Inversion of the fallback branch of the `try` block. -/
theorem classify_eq_fallback {f : Frame} {o : FetchResult} {fm : String} {tr : List String}
    (h : classify f o = .fallback fm tr) :
    isFreeModel f.model = true ∧ f.tried.contains f.model = false ∧
    tr = f.tried ++ [f.model] ∧ fallbackCandidate tr = some fm := by
  unfold classify at h
  split at h
  · simp at h
  · split at h
    · split at h
      · split at h <;> simp at h
      · simp at h
    · split at h
      · split at h
        · rename_i hok hguard xopt fm2 hfc
          simp only [Bool.and_eq_true, Bool.not_eq_true'] at hguard
          obtain ⟨⟨helig, hfree⟩, hcont⟩ := hguard
          have haddT : addTried f.tried f.model = f.tried ++ [f.model] := by
            unfold addTried; rw [hcont]; simp
          obtain ⟨hfm, htr⟩ : fm2 = fm ∧ addTried f.tried f.model = tr := by
            injection h with h1 h2; exact ⟨h1, h2⟩
          subst hfm
          subst htr
          exact ⟨hfree, hcont, haddT, hfc⟩
        · simp at h
      · simp at h

/-- Fetches a frame can still perform, counting the one it is about to
issue. -/
def attemptsLeft (f : Frame) : Nat := 4 - min f.attempt 3

/-- How many registry aliases the tried set already covers. -/
def triedKeyCount (tried : List String) : Nat := (FREE_MODEL_KEYS ∩ tried.toFinset).card

/-- How many fresh frames the fallback chain below a frame can still
create. -/
def chainCap (f : Frame) : Nat :=
  if isFreeModel f.model && !(f.tried.contains f.model) then 5 - triedKeyCount f.tried else 0

/-- Bound on the future fetches of a current frame and its fallback
descendants. -/
def framePot (f : Frame) : Nat := attemptsLeft f + 4 * chainCap f

/-- Bound on the future fetches of the suspended frames: a resumed frame
first burns one retry. -/
def stackPot (stack : List Frame) : Nat :=
  (stack.map (fun f => (attemptsLeft f - 1) + 4 * chainCap f)).sum

theorem attemptsLeft_pos (f : Frame) : 1 ≤ attemptsLeft f := by
  unfold attemptsLeft; omega

theorem stackPot_cons (f : Frame) (stack : List Frame) :
    stackPot (f :: stack) = ((attemptsLeft f - 1) + 4 * chainCap f) + stackPot stack := by
  simp [stackPot]

theorem triedKeyCount_append (tried : List String) (m : String)
    (hm : isFreeModel m = true) (hnot : m ∉ tried) :
    triedKeyCount (tried ++ [m]) = triedKeyCount tried + 1 := by
  unfold triedKeyCount
  rw [List.toFinset_append]
  have hmk : m ∈ FREE_MODEL_KEYS := (isFreeModel_iff_mem_keys m).mp hm
  rw [show ([m] : List String).toFinset = {m} from by simp,
    Finset.inter_distrib_left, Finset.inter_singleton_of_mem hmk,
    Finset.union_comm, ← Finset.insert_eq,
    Finset.card_insert_of_not_mem (by simp [hnot])]

theorem triedKeyCount_le_five (tried : List String) (fm : String)
    (hfree : isFreeModel fm = true) (hnot : fm ∉ tried) :
    triedKeyCount tried ≤ 5 := by
  have hmk : fm ∈ FREE_MODEL_KEYS := (isFreeModel_iff_mem_keys fm).mp hfree
  have hsub : FREE_MODEL_KEYS ∩ tried.toFinset ⊆ FREE_MODEL_KEYS.erase fm := by
    intro x hx
    rcases Finset.mem_inter.mp hx with ⟨hk, ht⟩
    refine Finset.mem_erase.mpr ⟨?_, hk⟩
    rintro rfl
    exact hnot (List.mem_toFinset.mp ht)
  calc triedKeyCount tried ≤ (FREE_MODEL_KEYS.erase fm).card := Finset.card_le_card hsub
    _ = FREE_MODEL_KEYS.card - 1 := Finset.card_erase_of_mem hmk
    _ ≤ 5 := by rw [keys_card]

/-- Unwinding a propagating exception through the suspended frames can
only lose potential, and preserves the attempt-counter invariant. -/
theorem unwind_pot (e : GroqError) :
    ∀ (stack : List Frame), (∀ g ∈ stack, g.attempt ≤ 3) →
      ∀ d f' stack', unwind e stack = some (d, f', stack') →
        framePot f' + stackPot stack' ≤ stackPot stack ∧ f'.attempt ≤ 3 ∧
        ∀ g ∈ stack', g.attempt ≤ 3 := by
  intro stack
  induction stack with
  | nil => intro _ d f' stack' h; simp [unwind] at h
  | cons g gs ih =>
    intro hatt d f' stack' h
    have hg : g.attempt ≤ 3 := hatt g (List.mem_cons_self g gs)
    have hgs : ∀ x ∈ gs, x.attempt ≤ 3 := fun x hx => hatt x (List.mem_cons_of_mem g hx)
    unfold unwind at h
    split at h
    · rename_i hcond
      simp only [Bool.and_eq_true, Bool.not_eq_true'] at hcond
      obtain ⟨hnet2, hne3⟩ := hcond
      have hlt : g.attempt < 3 := by
        rcases Nat.lt_or_ge g.attempt 3 with h' | h'
        · exact h'
        · exfalso
          have : g.attempt = 3 := le_antisymm hg h'
          simp [MAX_RETRIES, this] at hne3
      simp only [Option.some.injEq, Prod.mk.injEq] at h
      obtain ⟨hd, hfr, hst⟩ := h
      subst hfr
      subst hst
      refine ⟨?_, by show g.attempt + 1 ≤ 3; omega, hgs⟩
      have hcap : chainCap { g with attempt := g.attempt + 1 } = chainCap g := rfl
      have hal : attemptsLeft { g with attempt := g.attempt + 1 } = attemptsLeft g - 1 := by
        simp [attemptsLeft]; omega
      unfold framePot stackPot
      rw [hcap, hal]
      simp only [List.map_cons, List.sum_cons]
      have := attemptsLeft_pos g
      omega
    · obtain ⟨hle, hf3, hst3⟩ := ih hgs d f' stack' h
      refine ⟨?_, hf3, hst3⟩
      unfold stackPot
      simp only [List.map_cons, List.sum_cons]
      unfold stackPot at hle
      omega

/-- Any run makes at most `framePot + stackPot` outbound requests. -/
theorem runCall_requests_le (prompt style tier : String) :
    ∀ (oracle : List FetchResult) (f : Frame) (stack : List Frame),
      f.attempt ≤ 3 → (∀ g ∈ stack, g.attempt ≤ 3) →
      (requestsOf (runCall prompt style tier oracle f stack).1).length ≤
        framePot f + stackPot stack := by
  intro oracle
  induction oracle with
  | nil =>
    intro f stack _ _
    simp [runCall, requestsOf]
  | cons o rest ih =>
    intro f stack hf hs
    have hpos := attemptsLeft_pos f
    rcases hc : classify f o with c | ⟨fm, tr⟩ | e
    · simp only [runCall, hc]
      rw [show (requestsOf [Event.request (mkRequest prompt style tier f.model)]).length = 1
        from rfl]
      unfold framePot
      omega
    · obtain ⟨hfree, hcont, htr, hfc⟩ := classify_eq_fallback hc
      have hnotmem : f.model ∉ f.tried := by simpa using hcont
      have hfm_mem : fm ∈ MODEL_FALLBACK_ORDER := List.mem_of_find?_eq_some hfc
      have hfm_free : isFreeModel fm = true := order_all_free fm hfm_mem
      have hfm_nottr : fm ∉ tr := by
        have hp := List.find?_some hfc
        simp at hp
        exact hp
      have htk : triedKeyCount tr = triedKeyCount f.tried + 1 := by
        rw [htr]
        exact triedKeyCount_append _ _ hfree hnotmem
      have htk5 : triedKeyCount tr ≤ 5 := triedKeyCount_le_five tr fm hfm_free hfm_nottr
      have hcap_f : chainCap f = 5 - triedKeyCount f.tried := by
        unfold chainCap
        rw [hfree, hcont]
        simp
      have hcap_child : chainCap ⟨fm, tr, 0⟩ = 5 - triedKeyCount tr := by
        unfold chainCap
        have hc2 : tr.contains fm = false := by
          rcases h' : tr.contains fm with _ | _
          · rfl
          · exact absurd (by simp_all : fm ∈ tr) hfm_nottr
        simp [hfm_free, hc2]
        exact fun h => absurd h hfm_nottr
      have hcap_f2 : chainCap { f with tried := tr } = 0 := by
        unfold chainCap
        simp only [Bool.and_eq_true, Bool.not_eq_true']
        split
        · rename_i hcond
          exfalso
          rw [htr] at hcond
          simp at hcond
        · rfl
      have hrec := ih ⟨fm, tr, 0⟩ ({ f with tried := tr } :: stack)
        (by exact Nat.zero_le 3)
        (by
          intro g hg
          rcases List.mem_cons.mp hg with rfl | hg2
          · exact hf
          · exact hs g hg2)
      simp only [runCall, hc]
      rw [requestsOf_request_cons, List.length_cons]
      rw [stackPot_cons] at hrec
      have e1 : attemptsLeft ⟨fm, tr, 0⟩ = 4 := rfl
      have e2 : attemptsLeft { f with tried := tr } = attemptsLeft f := rfl
      unfold framePot at hrec ⊢
      omega
    · simp only [runCall, hc]
      rcases hu : unwind e (f :: stack) with _ | ⟨d, f', stack'⟩
      · simp only []
        rw [show (requestsOf [Event.request (mkRequest prompt style tier f.model)]).length = 1
          from rfl]
        unfold framePot
        omega
      · simp only []
        rw [requestsOf_request_cons, requestsOf_wait_cons, List.length_cons]
        have hall : ∀ g ∈ f :: stack, g.attempt ≤ 3 := by
          intro g hg
          rcases List.mem_cons.mp hg with rfl | hg2
          · exact hf
          · exact hs g hg2
        obtain ⟨hle, hf3, hst3⟩ := unwind_pot e (f :: stack) hall d f' stack' hu
        have hrec := ih f' stack' hf3 hst3
        rw [stackPot_cons] at hle
        unfold framePot at *
        omega

/-- C4: four consecutive transport failures terminate the call with that
transport failure, all four requests going to the same (starting) model —
transport failures never switch the model — and, for every oracle, a call
started with an empty tried set issues at most
`(MAX_RETRIES + 1) * MODEL_FALLBACK_ORDER.length` requests in total. -/
theorem transport_exhaustion_terminal_and_call_bound (e1 e2 e3 e4 : JsError)
    (h1 : isNetworkError e1 = true) (h2 : isNetworkError e2 = true)
    (h3 : isNetworkError e3 = true) (h4 : isNetworkError e4 = true)
    (rest oracle : List FetchResult) (prompt tier model : String) (pers : Personality) :
    ((callGroq (.netErr e1 :: .netErr e2 :: .netErr e3 :: .netErr e4 :: rest)
        prompt pers tier model []).2 = .error (.net e4) ∧
     (requestsOf (callGroq (.netErr e1 :: .netErr e2 :: .netErr e3 :: .netErr e4 :: rest)
        prompt pers tier model []).1).map Request.model =
       [resolveModelId model, resolveModelId model, resolveModelId model,
        resolveModelId model]) ∧
    (requestsOf (callGroq oracle prompt pers tier model []).1).length ≤
      (MAX_RETRIES + 1) * MODEL_FALLBACK_ORDER.length := by
  constructor
  · constructor <;>
      simp [callGroq, runCall, classify, unwind, errIsNetwork, h1, h2, h3, h4,
        MAX_RETRIES, requestsOf, mkRequest]
  · have hb := runCall_requests_le prompt pers.style tier oracle ⟨model, [], 0⟩ []
      (by exact Nat.zero_le 3) (by intro g hg; simp at hg)
    have hcap : chainCap ⟨model, [], 0⟩ ≤ 5 := by
      unfold chainCap
      split <;> omega
    have hfp : framePot ⟨model, [], 0⟩ =
        attemptsLeft ⟨model, [], 0⟩ + 4 * chainCap ⟨model, [], 0⟩ := rfl
    have hal : attemptsLeft ⟨model, [], 0⟩ = 4 := rfl
    have hsp : stackPot ([] : List Frame) = 0 := rfl
    have htot : (MAX_RETRIES + 1) * MODEL_FALLBACK_ORDER.length = 24 := rfl
    rw [htot]
    unfold callGroq
    omega

theorem transport_exhaustion_terminal_and_call_bound_witness :
    ((callGroq [.netErr ⟨"AbortError", ""⟩, .netErr ⟨"TypeError", ""⟩,
        .netErr ⟨"", "UND_ERR_CONNECT_TIMEOUT"⟩, .netErr ⟨"", "ETIMEDOUT"⟩]
        "P" ⟨"Pro Agent", "advocate", "S"⟩ "medium" "llama33" []).2 =
      .error (.net ⟨"", "ETIMEDOUT"⟩) ∧
     (requestsOf (callGroq [.netErr ⟨"AbortError", ""⟩, .netErr ⟨"TypeError", ""⟩,
        .netErr ⟨"", "UND_ERR_CONNECT_TIMEOUT"⟩, .netErr ⟨"", "ETIMEDOUT"⟩]
        "P" ⟨"Pro Agent", "advocate", "S"⟩ "medium" "llama33" []).1).map Request.model =
       [resolveModelId "llama33", resolveModelId "llama33", resolveModelId "llama33",
        resolveModelId "llama33"]) ∧
    (requestsOf (callGroq [] "P" ⟨"Pro Agent", "advocate", "S"⟩ "medium" "llama33" []).1).length ≤
      (MAX_RETRIES + 1) * MODEL_FALLBACK_ORDER.length :=
  transport_exhaustion_terminal_and_call_bound ⟨"AbortError", ""⟩ ⟨"TypeError", ""⟩
    ⟨"", "UND_ERR_CONNECT_TIMEOUT"⟩ ⟨"", "ETIMEDOUT"⟩ (by decide) (by decide) (by decide)
    (by decide) [] [] "P" "medium" "llama33" ⟨"Pro Agent", "advocate", "S"⟩

/-- C3: for any sequence of at most 3 transport-level failures followed by
a 200 success with generated text, the call returns the success text; the
k-th retry is preceded by a wait of `INITIAL_RETRY_DELAY_MS * 2 ^ (k-1)`
milliseconds (1s, 2s, 4s), the cumulative wait stays at or below 7000 ms,
and one request is made per attempt. -/
theorem transport_retries_return_success_with_backoff (errs : List JsError)
    (hlen : errs.length ≤ 3) (hnet : ∀ e ∈ errs, isNetworkError e = true)
    (txt : String) (htxt : txt ≠ "") (rest : List FetchResult)
    (prompt tier model : String) (pers : Personality) :
    (callGroq (errs.map FetchResult.netErr ++ FetchResult.resp 200 "" (some txt) :: rest)
        prompt pers tier model []).2 = .ok txt ∧
    waitsOf (callGroq (errs.map FetchResult.netErr ++ FetchResult.resp 200 "" (some txt) :: rest)
        prompt pers tier model []).1 =
      (List.range errs.length).map (fun k => INITIAL_RETRY_DELAY_MS * 2 ^ k) ∧
    (waitsOf (callGroq (errs.map FetchResult.netErr ++ FetchResult.resp 200 "" (some txt) :: rest)
        prompt pers tier model []).1).sum ≤ 7000 ∧
    (requestsOf (callGroq (errs.map FetchResult.netErr ++ FetchResult.resp 200 "" (some txt) :: rest)
        prompt pers tier model []).1).length = errs.length + 1 := by
  have hne : txt.isEmpty = false := by
    rcases h : txt.isEmpty with _ | _
    · rfl
    · exact absurd ((String.isEmpty_iff txt).mp h) htxt
  have h200 : respOk 200 = true := rfl
  match errs, hlen with
  | [], _ =>
    simp [callGroq, runCall, classify, hne, h200, waitsOf, requestsOf]
  | [e1], _ =>
    have h1 := hnet e1 (by simp)
    simp [callGroq, runCall, classify, hne, h200, waitsOf, requestsOf, unwind, errIsNetwork,
      h1, MAX_RETRIES, INITIAL_RETRY_DELAY_MS] <;> decide
  | [e1, e2], _ =>
    have h1 := hnet e1 (by simp)
    have h2 := hnet e2 (by simp)
    simp [callGroq, runCall, classify, hne, h200, waitsOf, requestsOf, unwind, errIsNetwork,
      h1, h2, MAX_RETRIES, INITIAL_RETRY_DELAY_MS] <;> decide
  | [e1, e2, e3], _ =>
    have h1 := hnet e1 (by simp)
    have h2 := hnet e2 (by simp)
    have h3 := hnet e3 (by simp)
    simp [callGroq, runCall, classify, hne, h200, waitsOf, requestsOf, unwind, errIsNetwork,
      h1, h2, h3, MAX_RETRIES, INITIAL_RETRY_DELAY_MS] <;> decide

theorem transport_retries_return_success_with_backoff_witness :
    (callGroq [.netErr ⟨"AbortError", ""⟩, .netErr ⟨"", "ECONNREFUSED"⟩,
        .netErr ⟨"", "ETIMEDOUT"⟩, .resp 200 "" (some "OK")]
        "P" ⟨"Pro Agent", "advocate", "S"⟩ "long" "llama33" []).2 = .ok "OK" ∧
    waitsOf (callGroq [.netErr ⟨"AbortError", ""⟩, .netErr ⟨"", "ECONNREFUSED"⟩,
        .netErr ⟨"", "ETIMEDOUT"⟩, .resp 200 "" (some "OK")]
        "P" ⟨"Pro Agent", "advocate", "S"⟩ "long" "llama33" []).1 =
      (List.range 3).map (fun k => INITIAL_RETRY_DELAY_MS * 2 ^ k) ∧
    (waitsOf (callGroq [.netErr ⟨"AbortError", ""⟩, .netErr ⟨"", "ECONNREFUSED"⟩,
        .netErr ⟨"", "ETIMEDOUT"⟩, .resp 200 "" (some "OK")]
        "P" ⟨"Pro Agent", "advocate", "S"⟩ "long" "llama33" []).1).sum ≤ 7000 ∧
    (requestsOf (callGroq [.netErr ⟨"AbortError", ""⟩, .netErr ⟨"", "ECONNREFUSED"⟩,
        .netErr ⟨"", "ETIMEDOUT"⟩, .resp 200 "" (some "OK")]
        "P" ⟨"Pro Agent", "advocate", "S"⟩ "long" "llama33" []).1).length = 3 + 1 := by
  have h := transport_retries_return_success_with_backoff
    [⟨"AbortError", ""⟩, ⟨"", "ECONNREFUSED"⟩, ⟨"", "ETIMEDOUT"⟩] (by decide)
    (by intro e he; fin_cases he <;> decide) "OK" (by decide) []
    "P" "long" "llama33" ⟨"Pro Agent", "advocate", "S"⟩
  simpa using h

/-- C7: the registry lookup of line 94 is total: a recognized alias
resolves to its table entry, an unrecognized one to the default identifier,
which is `llama33`'s identifier. -/
theorem resolve_total_with_default (modelAlias : String) :
    (∀ id, freeModelsLookup modelAlias = some id → resolveModelId modelAlias = id) ∧
    (freeModelsLookup modelAlias = none →
      resolveModelId modelAlias = "llama-3.3-70b-versatile") ∧
    freeModelsLookup "llama33" = some "llama-3.3-70b-versatile" := by
  refine ⟨fun id h => ?_, fun h => ?_, rfl⟩ <;> simp [resolveModelId, h]

theorem resolve_total_with_default_witness :
    resolveModelId "mixtral" = "mixtral-8x7b-32768" ∧
    resolveModelId "gpt4" = "llama-3.3-70b-versatile" :=
  ⟨(resolve_total_with_default "mixtral").1 "mixtral-8x7b-32768" rfl,
   (resolve_total_with_default "gpt4").2.1 rfl⟩

/-- C10: when the starting alias is not a key of `FREE_MODELS`, even a
fallback-eligible rejection (404, 429 or 503) of the default-substituted
request is immediately terminal: the fallback branch also requires
`model in FREE_MODELS`, so exactly one request is made and no fallback
model is attempted. -/
theorem unknown_alias_rejection_no_fallback (modelAlias : String)
    (hunk : freeModelsLookup modelAlias = none) (status : Nat)
    (hst : status = 404 ∨ status = 429 ∨ status = 503)
    (errorData : String) (rest : List FetchResult) (prompt tier : String)
    (pers : Personality) :
    callGroq (.resp status errorData none :: rest) prompt pers tier modelAlias [] =
      ([.request (mkRequest prompt pers.style tier modelAlias)],
       .error (.apiError status errorData)) := by
  have hfree : isFreeModel modelAlias = false := by simp [isFreeModel, hunk]
  rcases hst with h | h | h <;> subst h <;>
    simp [callGroq, runCall, classify, respOk, hfree, unwind, errIsNetwork]

theorem unknown_alias_rejection_no_fallback_witness :
    callGroq [.resp 429 "limited" none] "P" ⟨"Pro Agent", "advocate", "S"⟩ "short" "gpt4" [] =
      ([.request (mkRequest "P" "S" "short" "gpt4")], .error (.apiError 429 "limited")) :=
  unknown_alias_rejection_no_fallback "gpt4" rfl 429 (Or.inr (Or.inl rfl)) "limited" [] "P"
    "short" ⟨"Pro Agent", "advocate", "S"⟩

end DebateSim
